import Mathlib

/-!
Shallow embedding of the request-forwarding function in
`src/script/CaptureAPI/supabase/functions/capture/index.ts`.

The handler is a single request-scoped function.  Pure computations
(path splitting, alias lookup, target resolution, URL construction,
body-capture decisions) are translated directly as Lean functions.
The external world (the outbound fetch, the database insert, the
storage bucket operations, the wall clock) is modelled as an
environment of oracles: each external call's outcome is a field of
`Env`, and the handler is a pure function of the request and the
environment that returns the client-visible response together with
the logging side effects (the log record handed to the sinks, the
number of rows inserted and blobs created).

Modelling conventions, all noted where used:
- JS header maps are case-insensitive; we represent them as
  association lists whose keys are already lower-cased (as produced
  by `Object.fromEntries(headers.entries())` in the source).
- JS string truthiness (`x || y`, `if (!x)`) is modelled explicitly:
  the empty string is falsy.
- `ENDPOINT_MAP[seg]` is JS property access on a plain object
  literal, so it traverses the prototype chain: besides the seven own
  keys it also finds the inherited truthy members of
  `Object.prototype` (`toString`, `constructor`, `valueOf`, ...).
  `mapAccess` models both cases; a prototype hit later makes
  `targetBase.replace` throw a TypeError into the top-level catch.
- `new URL(rel, base)` throws when the base is not a parseable
  absolute URL; parseability is modelled as the presence of a URL
  scheme (`hasScheme`).  For a parseable base the resolution is
  modelled as concatenation, which coincides with URL resolution for
  the shapes the handler produces: `base` ends in a single slash and
  `rel` is a path-relative reference with no leading slash and no
  dot segments.
- `createClient` is the supabase-js v2 constructor (an external
  collaborator, not repository code): it validates its arguments and
  throws on an empty URL or key, which the empty-string environment
  defaults trigger; `createClientThrow` models that.  The clients'
  operations (insert, getBucket, createBucket, upload) report failure
  through their data/error results, modelled as `Env` oracles.
- `resClone.text()` / `reqClone.text()` are modelled as total reads
  of the body string: a body is its byte content, and reading a clone
  deterministically yields that content.  Mid-stream I/O failure is a
  real-time phenomenon outside this embedding.
-/

namespace Capture

/-- Character-list prefix test (`Bool`-valued), used to model JS
`String.prototype.includes`. -/
def chPre : List Char → List Char → Bool
  | [], _ => true
  | _ :: _, [] => false
  | a :: as, b :: bs => a = b && chPre as bs

/-- Character-list substring test (`Bool`-valued). -/
def chSub (sub : List Char) : List Char → Bool
  | [] => sub.isEmpty
  | b :: bs => chPre sub (b :: bs) || chSub sub bs

/-- JS `s.includes(sub)`. -/
def jsIncludes (s sub : String) : Bool :=
  chSub sub.toList s.toList

/-- Lookup in an association list of headers.  Models both
`headers.get(name)` and property access `requestHeaders[name]` on the
object built by `Object.fromEntries(headers.entries())`; keys are
stored lower-cased. -/
def getHeader (hs : List (String × String)) (name : String) : Option String :=
  (hs.find? (fun p => p.1 == name)).map (fun p => p.2)

/-- JS `x || null` on a nullable string: the empty string is falsy. -/
def jsOrNull (o : Option String) : Option String :=
  match o with
  | some s => if s = "" then none else some s
  | none => none

/-- An inbound HTTP request as the handler sees it.
`headers` is the lower-cased header map; `queryTarget` is
`url.searchParams.get('_target')`; `search` is `url.search` (either
empty or starting with a question mark); `body` is the request body
content (the empty string for a body-less request, matching
`text()` resolving to the empty string). -/
structure Request where
  method : String
  pathname : String
  search : String
  queryTarget : Option String
  headers : List (String × String)
  body : String
deriving Repr, DecidableEq

/-- An HTTP response: used both for the upstream fetch result and for
the response returned to the client.  `headers` is the lower-cased
header map (as produced by `Object.fromEntries(response.headers.entries())`). -/
structure Response where
  status : Nat
  headers : List (String × String)
  body : String
deriving Repr, DecidableEq

/-- The environment and the outcomes of all external calls the
handler makes, as oracles.
`fetchResult` is the outbound `fetch`: `.ok` is the upstream response,
`.error` carries `err.message` of the connection failure.
`supabaseUrl`, `supabaseAnonKey` and `supabaseServiceKey` are the
`Deno.env.get(...) ?? ''` values (so an absent variable is the empty
string).
`dbInsertError` is the `error` field of the `api_logs` insert result.
`getBucketError` is the `error` field of `storage.getBucket`.
`uploadOk` tells whether `storage.upload` creates the blob object.
`duration` is the measured `Date.now()` difference. -/
structure Env where
  fetchResult : Except String Response
  supabaseUrl : String
  supabaseAnonKey : String
  supabaseServiceKey : String
  dbInsertError : Option String
  getBucketError : Option String
  uploadOk : Bool
  duration : Nat
deriving Repr

/-- The row shape handed to the `api_logs` insert (and, restructured
into metadata/request/response sections, to the storage fallback). -/
structure LogRecord where
  method : String
  url : String
  request_headers : List (String × String)
  request_body : Option String
  response_status : Nat
  response_headers : List (String × String)
  response_body : Option String
  duration_ms : Nat
  client_ip : Option String
deriving Repr, DecidableEq

/-- What one invocation of the handler produces: the client-visible
response, the observable logging side effects, and whether the
outbound fetch was attempted (it is when the URL-construction stage
succeeds, even if a later throw discards the upstream response). -/
structure HandlerResult where
  response : Response
  logRecord : Option LogRecord
  rowsInserted : Nat
  bucketsCreated : Nat
  blobsCreated : Nat
  fetchAttempted : Bool
deriving Repr, DecidableEq

/-- The fixed cross-origin allow headers (`corsHeaders` in the source). -/
def corsHeaders : List (String × String) :=
  [("Access-Control-Allow-Origin", "*"),
   ("Access-Control-Allow-Headers", "authorization, x-client-info, apikey, content-type, x-proxy-target, x-anthropic-version, anthropic-version"),
   ("Access-Control-Allow-Methods", "POST, GET, OPTIONS, PUT, DELETE, PATCH")]

/-- The alias table (`ENDPOINT_MAP` in the source). -/
def ENDPOINT_MAP : List (String × String) :=
  [("anthropic", "https://api.anthropic.com"),
   ("openai", "https://api.openai.com"),
   ("deepseek", "https://api.deepseek.com"),
   ("gemini", "https://generativelanguage.googleapis.com"),
   ("groq", "https://api.groq.com/openai"),
   ("xrapi", "https://api.nextxr.site"),
   ("echo", "https://echo.free.beeceptor.com")]

/-- Lookup among the seven own keys of `ENDPOINT_MAP`.  All table
values are nonempty strings, hence truthy. -/
def lookupAlias (s : String) : Option String :=
  (ENDPOINT_MAP.find? (fun p => p.1 == s)).map (fun p => p.2)

/-- What JS property access `ENDPOINT_MAP[s]` can yield besides
`undefined`: an own key's string value, or an inherited truthy member
of `Object.prototype` (a function, or `Object.prototype` itself for
`__proto__`). -/
inductive MapHit where
  | own (base : String)
  | protoFn
deriving Repr, DecidableEq

/-- The property names a plain object literal inherits from
`Object.prototype`; accessing any of them yields a truthy value. -/
def protoProps : List String :=
  ["constructor", "hasOwnProperty", "isPrototypeOf", "propertyIsEnumerable",
   "toLocaleString", "toString", "valueOf", "__proto__",
   "__defineGetter__", "__defineSetter__", "__lookupGetter__", "__lookupSetter__"]

/-- JS property access `ENDPOINT_MAP[s]`: an own key shadows the
prototype; otherwise the prototype chain is consulted; otherwise the
access is `undefined` (falsy). -/
def mapAccess (s : String) : Option MapHit :=
  match lookupAlias s with
  | some base => some (MapHit.own base)
  | none => if protoProps.contains s then some MapHit.protoFn else none

/-- JS `s.split(sep)` on character lists (`acc` holds the current
chunk, reversed).  Structural recursion so that concrete instances
reduce inside the kernel. -/
def splitCharsAux (sep : Char) : List Char → List Char → List (List Char)
  | [], acc => [acc.reverse]
  | c :: cs, acc =>
    if c = sep then acc.reverse :: splitCharsAux sep cs []
    else splitCharsAux sep cs (c :: acc)

/-- `url.pathname.split('/').filter(Boolean)`. -/
def splitPath (p : String) : List String :=
  ((splitCharsAux '/' p.toList []).map String.mk).filter (fun s => s ≠ "")

/-- `segs.join('/')`. -/
def joinSegs : List String → String
  | [] => ""
  | [s] => s
  | s :: rest => s ++ "/" ++ joinSegs rest

/-- The alias scan (source lines 43-52): the first segment whose
`ENDPOINT_MAP` access is truthy — an own key or an inherited
`Object.prototype` member — is taken as the match; the result also
carries the segments after that first matching segment. -/
def findAliasSplit : List String → Option (MapHit × List String)
  | [] => none
  | s :: rest =>
    match mapAccess s with
    | some h => some (h, rest)
    | none => findAliasSplit rest

/-- `segs.indexOf(marker)` followed by `segs.slice(index+1)`: the
segments after the first occurrence of `marker`, or `none` when
`marker` does not occur. -/
def stripAfter (marker : String) : List String → Option (List String)
  | [] => none
  | s :: rest => if s = marker then some rest else stripAfter marker rest

/-- The raw override expression
`req.headers.get('x-proxy-target') || url.searchParams.get('_target')`
with JS `||` semantics (empty string is falsy). -/
def rawOverride (req : Request) : Option String :=
  match getHeader req.headers "x-proxy-target" with
  | some h => if h ≠ "" then some h else req.queryTarget
  | none => req.queryTarget

/-- The override actually taken: `if (!targetBase)` treats both null
and the empty string as "no override". -/
def effOverride (req : Request) : Option String :=
  match rawOverride req with
  | some t => if t ≠ "" then some t else none
  | none => none

/-- The JS value held by `targetBase` after resolution: a string, or
the inherited `Object.prototype` function picked out of the alias
table by a prototype-member segment. -/
inductive ResolvedBase where
  | str (s : String)
  | protoFn
deriving Repr, DecidableEq

/-- Target resolution (source lines 34-85): returns the resolved
`targetBase` (which is a function, not a string, when the alias scan
matched an inherited prototype member) and `proxyPath`. -/
def resolveTarget (req : Request) : ResolvedBase × String :=
  let pathSegments := splitPath req.pathname
  match effOverride req with
  | some t =>
    -- Explicit target provided, just strip the function wrapper.
    match stripAfter "capture" pathSegments with
    | some rest => (ResolvedBase.str t, "/" ++ joinSegs rest)
    | none => (ResolvedBase.str t, req.pathname)
  | none =>
    match findAliasSplit pathSegments with
    | some (MapHit.own base, rest) => (ResolvedBase.str base, "/" ++ joinSegs rest)
    | some (MapHit.protoFn, rest) => (ResolvedBase.protoFn, "/" ++ joinSegs rest)
    | none =>
      -- Fallback: default to Anthropic.
      let base := "https://api.anthropic.com"
      match stripAfter "capture" pathSegments with
      | some rest => (ResolvedBase.str base, "/" ++ joinSegs rest)
      | none =>
        if pathSegments.length ≥ 3 ∧ pathSegments[0]? = some "functions"
            ∧ pathSegments[1]? = some "v1" then
          (ResolvedBase.str base, "/" ++ joinSegs (pathSegments.drop 3))
        else
          (ResolvedBase.str base, req.pathname)

/-- `targetBase.replace(/\/$/, '')`: removes one trailing slash. -/
def stripTrailingSlash (s : String) : String :=
  if s.toList.getLast? = some '/' then String.mk s.toList.dropLast else s

/-- `proxyPath.replace(/^\//, '')`: removes one leading slash. -/
def stripLeadingSlash (s : String) : String :=
  match s.toList with
  | '/' :: rest => String.mk rest
  | _ => s

/-- Whether a string begins with a URL scheme: an ASCII letter
followed by letters, digits, `+`, `-` or `.` up to a colon. -/
def schemeTail : List Char → Bool
  | [] => false
  | c :: cs =>
    if c = ':' then true
    else (c.isAlphanum || c = '+' || c = '-' || c = '.') && schemeTail cs

/-- Parseability of `normalizedTargetBase + '/'` by `new URL`,
modelled as the presence of a URL scheme: the alias table's bases and
any `scheme://...` override parse, while a scheme-less override such
as `garbage` makes `new URL` throw.  (Finer WHATWG failure modes are
below this abstraction.) -/
def hasScheme (s : String) : Bool :=
  match s.toList with
  | [] => false
  | c :: cs => c.isAlpha && schemeTail cs

/-- URL construction (source lines 87-91).  This stage throws into
the top-level catch in two ways: `targetBase.replace(/\/$/, '')` is a
TypeError when `targetBase` is the inherited prototype function, and
`new URL(normalizedProxyPath, normalizedTargetBase + '/')` throws
when the base is not a parseable URL.  Otherwise the result is the
resolved URL string with `url.search` appended, with
relative-reference resolution modelled as concatenation (see the file
header for the shapes this covers). -/
def buildTargetUrl (base : ResolvedBase) (path search : String) : Except String String :=
  match base with
  | ResolvedBase.protoFn => Except.error "targetBase.replace is not a function"
  | ResolvedBase.str b =>
    if hasScheme b then
      Except.ok (stripTrailingSlash b ++ "/" ++ stripLeadingSlash path ++ search)
    else
      Except.error ("Invalid URL: " ++ stripTrailingSlash b ++ "/")

/-- Modelled from supabase-js v2 (an external collaborator, not
repository code): the `SupabaseClient` constructor validates its
arguments and throws `supabaseUrl is required.` /
`supabaseKey is required.` on an empty string.  The handler constructs
the service-role client and then the anon client (source lines
153-159), so all three environment values must be nonempty for the
logging section to proceed; the thrown message otherwise. -/
def createClientThrow (env : Env) : Option String :=
  if env.supabaseUrl = "" then some "supabaseUrl is required."
  else if env.supabaseServiceKey = "" then some "supabaseKey is required."
  else if env.supabaseAnonKey = "" then some "supabaseKey is required."
  else none

/-- Whether the URL-construction stage succeeds for this request
(neither the prototype-member TypeError nor an invalid-base `new URL`
throw occurs). -/
def urlBuildOk (req : Request) : Bool :=
  match buildTargetUrl (resolveTarget req).1 (resolveTarget req).2 req.search with
  | Except.ok _ => true
  | Except.error _ => false

/-- Request-body capture for logging (source lines 93-104): the body
is buffered only when the request content type indicates JSON or
text. -/
def captureRequestBody (req : Request) : Option String :=
  let contentType := (getHeader req.headers "content-type").getD ""
  if jsIncludes contentType "application/json" || jsIncludes contentType "text/" then
    some req.body
  else
    none

/-- Response-body capture for logging (source lines 129-142): the
sentinel for event streams, the cloned body text for JSON/text, and
nothing otherwise. -/
def captureResponseBody (r : Response) : Option String :=
  let contentTypeRes := (getHeader r.headers "content-type").getD ""
  if jsIncludes contentTypeRes "text/event-stream" then
    some "[STREAMING RESPONSE]"
  else if jsIncludes contentTypeRes "application/json" || jsIncludes contentTypeRes "text/" then
    some r.body
  else
    none

/-- The response synthesized when the outbound fetch fails (source
lines 143-148): `new Response(responseBody, { status: 502 })`. -/
def upstreamFailureBody (msg : String) : String :=
  "Error connecting to upstream: " ++ msg

/-- The top-level catch response (source lines 223-228):
status 500, the cross-origin headers plus a JSON content type, and a
JSON error body.  (String escaping inside `JSON.stringify` is not
modelled; no claim depends on the body text.) -/
def internalErrorResponse (msg : String) : Response :=
  { status := 500
    headers := corsHeaders ++ [("Content-Type", "application/json")]
    body := "\x7b\"error\":\"" ++ msg ++ "\"\x7d" }

/-- The whole handler (source lines 10-229) as a pure function of the
request and the environment.  The top-level catch is reachable in two
deterministic ways inside the `try`: the URL-construction stage
throws (prototype-member alias match, or scheme-less base) before the
fetch, and `createClient` throws on empty environment configuration
after the fetch; both yield `internalErrorResponse`.  All the other
external calls report failure through values (the supabase clients'
data/error results), and the storage fallback's `try` absorbs its own
failures. -/
def handle (req : Request) (env : Env) : HandlerResult :=
  if req.method = "OPTIONS" then
    { response := { status := 200, headers := corsHeaders, body := "ok" }
      logRecord := none
      rowsInserted := 0
      bucketsCreated := 0
      blobsCreated := 0
      fetchAttempted := false }
  else
    match buildTargetUrl (resolveTarget req).1 (resolveTarget req).2 req.search with
    | Except.error msg =>
      -- Thrown before the fetch: the outer catch replies 500.
      { response := internalErrorResponse msg
        logRecord := none
        rowsInserted := 0
        bucketsCreated := 0
        blobsCreated := 0
        fetchAttempted := false }
    | Except.ok targetUrl =>
      let requestBody := captureRequestBody req
      -- The four JS variables response / responseStatus / responseHeaders /
      -- responseBody, assigned in the fetch try branch or its catch.
      let response : Response :=
        match env.fetchResult with
        | Except.ok r => r
        | Except.error msg =>
          { status := 502, headers := [], body := upstreamFailureBody msg }
      let responseStatus : Nat :=
        match env.fetchResult with
        | Except.ok r => r.status
        | Except.error _ => 502
      let responseHeaders : List (String × String) :=
        match env.fetchResult with
        | Except.ok r => r.headers
        | Except.error _ => []
      let responseBody : Option String :=
        match env.fetchResult with
        | Except.ok r => captureResponseBody r
        | Except.error msg => some (upstreamFailureBody msg)
      match createClientThrow env with
      | some msg =>
        -- createClient threw after the fetch: the outer catch replies
        -- 500 and no sink is reached.
        { response := internalErrorResponse msg
          logRecord := none
          rowsInserted := 0
          bucketsCreated := 0
          blobsCreated := 0
          fetchAttempted := true }
      | none =>
        let record : LogRecord :=
          { method := req.method
            url := targetUrl
            request_headers := req.headers
            request_body := requestBody
            response_status := responseStatus
            response_headers := responseHeaders
            response_body := responseBody
            duration_ms := env.duration
            client_ip := jsOrNull (getHeader req.headers "x-forwarded-for") }
        match env.dbInsertError with
        | none =>
          { response := response
            logRecord := some record
            rowsInserted := 1
            bucketsCreated := 0
            blobsCreated := 0
            fetchAttempted := true }
        | some _ =>
          { response := response
            logRecord := some record
            rowsInserted := 0
            bucketsCreated :=
              match env.getBucketError with
              | some m => if jsIncludes m "not found" then 1 else 0
              | none => 0
            blobsCreated := if env.uploadOk then 1 else 0
            fetchAttempted := true }

/-! ### Helper lemmas -/

/-- The alias scan on a segment list that decomposes as
nowhere-matching segments (neither own keys nor inherited prototype
members) followed by an own alias key returns that alias's base URL
and the segments after it. -/
theorem findAliasSplit_append (pre post : List String) (a base : String)
    (hpre : ∀ s ∈ pre, mapAccess s = none) (ha : lookupAlias a = some base) :
    findAliasSplit (pre ++ a :: post) = some (MapHit.own base, post) := by
  induction pre with
  | nil => simp [findAliasSplit, mapAccess, ha]
  | cons x xs ih =>
    have hx : mapAccess x = none := hpre x (List.mem_cons_self x xs)
    simpa [findAliasSplit, hx] using ih (fun s hs => hpre s (List.mem_cons_of_mem x hs))

/-! ### Concrete inputs used by witnesses and counterexamples -/

/-- The spec's first worked example: a capture-mounted path with the
`openai` alias, no override. -/
def reqOpenaiEx : Request :=
  { method := "POST"
    pathname := "/functions/v1/capture/openai/v1/chat/completions"
    search := ""
    queryTarget := none
    headers := [("content-type", "application/json")]
    body := "sample request body" }

/-- The spec's second worked example: a capture-mounted path with no
alias segment, no override. -/
def reqFooBarEx : Request :=
  { method := "GET"
    pathname := "/functions/v1/capture/foo/bar"
    search := ""
    queryTarget := none
    headers := []
    body := "" }

/-- A request carrying the override header. -/
def reqOverrideEx : Request :=
  { method := "POST"
    pathname := "/functions/v1/capture/openai/v1/chat/completions"
    search := ""
    queryTarget := none
    headers := [("x-proxy-target", "https://override.example.com")]
    body := "" }

/-- A preflight request. -/
def reqPreflight : Request :=
  { method := "OPTIONS"
    pathname := "/functions/v1/capture/openai/v1/chat/completions"
    search := ""
    queryTarget := none
    headers := [("origin", "https://app.example.com")]
    body := "" }

/-- A plain JSON request used by the handler-level witnesses. -/
def reqJson : Request :=
  { method := "POST"
    pathname := "/functions/v1/capture/anthropic/v1/messages"
    search := ""
    queryTarget := none
    headers := [("content-type", "application/json"), ("x-forwarded-for", "203.0.113.7")]
    body := "request payload" }

/-- A JSON upstream response. -/
def respJson : Response :=
  { status := 200
    headers := [("content-type", "application/json")]
    body := "upstream json body" }

/-- A streaming upstream response. -/
def respStream : Response :=
  { status := 200
    headers := [("content-type", "text/event-stream")]
    body := "data: chunk1\n\ndata: chunk2\n\n" }

/-- A request whose path has an inherited `Object.prototype` property
name as a segment before an alias-table key, no override. -/
def reqProtoAlias : Request :=
  { method := "POST"
    pathname := "/toString/openai/v1"
    search := ""
    queryTarget := none
    headers := []
    body := "" }

/-- A request whose path has an inherited `Object.prototype` property
name as a segment and no alias-table key at all, no override. -/
def reqProtoPlain : Request :=
  { method := "GET"
    pathname := "/toString/foo"
    search := ""
    queryTarget := none
    headers := []
    body := "" }

/-- A request carrying a scheme-less override target. -/
def reqBadOverride : Request :=
  { method := "POST"
    pathname := "/functions/v1/capture/v1/messages"
    search := ""
    queryTarget := none
    headers := [("x-proxy-target", "garbage")]
    body := "" }

/-- Environment where everything succeeds. -/
def envAllOk : Env :=
  { fetchResult := Except.ok respJson
    supabaseUrl := "https://backend.example.supabase.co"
    supabaseAnonKey := "anon-key"
    supabaseServiceKey := "service-key"
    dbInsertError := none
    getBucketError := none
    uploadOk := true
    duration := 3 }

/-- Environment where all logging sinks fail but the fetch succeeds. -/
def envLogBad : Env :=
  { fetchResult := Except.ok respJson
    supabaseUrl := "https://backend.example.supabase.co"
    supabaseAnonKey := "anon-key"
    supabaseServiceKey := "service-key"
    dbInsertError := some "relation api_logs does not exist"
    getBucketError := some "Bucket not found"
    uploadOk := false
    duration := 9 }

/-- Environment where the structured insert fails but the fallback
upload succeeds. -/
def envInsertFails : Env :=
  { fetchResult := Except.ok respJson
    supabaseUrl := "https://backend.example.supabase.co"
    supabaseAnonKey := "anon-key"
    supabaseServiceKey := "service-key"
    dbInsertError := some "relation api_logs does not exist"
    getBucketError := some "Bucket not found"
    uploadOk := true
    duration := 4 }

/-- Environment with the empty-string configuration defaults (absent
environment variables) and an otherwise successful world. -/
def envNoConfig : Env :=
  { fetchResult := Except.ok respJson
    supabaseUrl := ""
    supabaseAnonKey := ""
    supabaseServiceKey := ""
    dbInsertError := none
    getBucketError := none
    uploadOk := true
    duration := 3 }

/-! ### Claims -/

/-- Claim C1 counterexample: the path `/toString/openai/v1` contains
the alias-table key `openai` and carries no override, yet the scan
matches the inherited `Object.prototype` member `toString` first, so
the resolved base is the prototype function — not the `openai` entry
with forwarded path `/v1` — and the handler crashes to the 500 catch
response at `targetBase.replace`, before any fetch. -/
theorem alias_scan_prototype_crash :
    effOverride reqProtoAlias = none ∧
    (splitPath reqProtoAlias.pathname).contains "openai" = true ∧
    lookupAlias "openai" = some "https://api.openai.com" ∧
    resolveTarget reqProtoAlias = (ResolvedBase.protoFn, "/openai/v1") ∧
    resolveTarget reqProtoAlias ≠ (ResolvedBase.str "https://api.openai.com", "/v1") ∧
    (handle reqProtoAlias envAllOk).response.status = 500 ∧
    (handle reqProtoAlias envAllOk).fetchAttempted = false :=
  ⟨rfl, by decide, by decide, by decide, by decide, by decide, by decide⟩

/-- Claim C1 (amended): for a request with no explicit override target
whose path contains a segment equal to a key of the alias table, where
no earlier segment matches the `ENDPOINT_MAP` access at all (in
particular, no earlier segment is an inherited `Object.prototype`
property name), the resolved base URL is that alias's table entry (for
the first such segment in order) and the forwarded path is exactly the
segments after that alias segment. -/
theorem alias_routing (req : Request) (pre post : List String) (a base : String)
    (hov : effOverride req = none)
    (hsplit : splitPath req.pathname = pre ++ a :: post)
    (hpre : ∀ s ∈ pre, mapAccess s = none)
    (ha : lookupAlias a = some base) :
    resolveTarget req = (ResolvedBase.str base, "/" ++ joinSegs post) := by
  simp only [resolveTarget, hov, hsplit, findAliasSplit_append pre post a base hpre ha]

/-- Claim C1 witness: the path `/functions/v1/capture/openai/v1/chat/completions`
with no override resolves to the `openai` base and, after URL
construction, to `https://api.openai.com/v1/chat/completions`. -/
theorem alias_routing_witness :
    resolveTarget reqOpenaiEx =
      (ResolvedBase.str "https://api.openai.com", "/v1/chat/completions") ∧
    buildTargetUrl (ResolvedBase.str "https://api.openai.com") "/v1/chat/completions" "" =
      Except.ok "https://api.openai.com/v1/chat/completions" :=
  ⟨alias_routing reqOpenaiEx ["functions", "v1", "capture"] ["v1", "chat", "completions"]
      "openai" "https://api.openai.com" (by decide) (by decide) (by decide) (by decide),
    rfl⟩

/-- Claim C3 counterexample: the preflight branch returns the body
`"ok"`, not an empty body, so "status 200 with an empty body" fails on
this concrete preflight request. -/
theorem preflight_body_not_empty :
    (handle reqPreflight envAllOk).response.body = "ok" ∧
    ¬((handle reqPreflight envAllOk).response.body = "") :=
  ⟨rfl, by decide⟩

/-- Claim C3 (amended): a preflight (OPTIONS) request yields status 200
with body `"ok"` and exactly the fixed cross-origin allow headers,
independent of path and other headers, and no resolution, forwarding,
or logging logic runs (no log record, no row, no bucket, no blob). -/
theorem preflight_response (req : Request) (env : Env) (h : req.method = "OPTIONS") :
    (handle req env).response = { status := 200, headers := corsHeaders, body := "ok" } ∧
    (handle req env).logRecord = none ∧
    (handle req env).rowsInserted = 0 ∧
    (handle req env).bucketsCreated = 0 ∧
    (handle req env).blobsCreated = 0 := by
  simp [handle, h]

/-- Claim C3 witness: the amended preflight property at a concrete
preflight request. -/
theorem preflight_response_witness :
    (handle reqPreflight envAllOk).response =
      { status := 200, headers := corsHeaders, body := "ok" } ∧
    (handle reqPreflight envAllOk).logRecord = none ∧
    (handle reqPreflight envAllOk).rowsInserted = 0 ∧
    (handle reqPreflight envAllOk).bucketsCreated = 0 ∧
    (handle reqPreflight envAllOk).blobsCreated = 0 :=
  preflight_response reqPreflight envAllOk rfl

/-- Claim C4: with an explicit override target (the header, or else the
query parameter, with JS truthiness), the resolved base URL is the
override value verbatim, and the forwarded path is the portion after
the mount-point segment `capture` when present, else the full inbound
path. -/
theorem override_resolution (req : Request) (t : String)
    (hov : effOverride req = some t) :
    resolveTarget req =
      (ResolvedBase.str t,
        match stripAfter "capture" (splitPath req.pathname) with
        | some rest => "/" ++ joinSegs rest
        | none => req.pathname) := by
  cases hs : stripAfter "capture" (splitPath req.pathname) <;>
    simp [resolveTarget, hov, hs]

/-- Claim C4 witness: the override header wins over the alias segment
in the path, and the path after `capture` is forwarded. -/
theorem override_resolution_witness :
    resolveTarget reqOverrideEx =
      (ResolvedBase.str "https://override.example.com", "/openai/v1/chat/completions") :=
  override_resolution reqOverrideEx "https://override.example.com" (by decide)

/-- Claim C5 counterexample: the path `/toString/foo` has no override
and no segment equal to an alias-table key, yet the program does not
fall back to the default upstream with the path unchanged: the scan
matches the inherited `Object.prototype` member `toString` and the
handler crashes to the 500 catch response before any fetch. -/
theorem default_scan_prototype_crash :
    effOverride reqProtoPlain = none ∧
    (∀ s ∈ splitPath reqProtoPlain.pathname, lookupAlias s = none) ∧
    resolveTarget reqProtoPlain = (ResolvedBase.protoFn, "/foo") ∧
    resolveTarget reqProtoPlain ≠
      (ResolvedBase.str "https://api.anthropic.com", "/toString/foo") ∧
    (handle reqProtoPlain envAllOk).response.status = 500 ∧
    (handle reqProtoPlain envAllOk).fetchAttempted = false :=
  ⟨rfl, by decide, by decide, by decide, by decide, by decide⟩

/-- Claim C5 (amended): with no override and no segment whose
`ENDPOINT_MAP` access is truthy (neither an alias-table key nor an
inherited `Object.prototype` property name), the resolved base URL is
the default upstream `https://api.anthropic.com`; the segment
`capture` and everything before it are stripped when present, else the
three leading segments are stripped when the path begins with
`/functions/v1`, else the path is forwarded unchanged. -/
theorem default_resolution (req : Request)
    (hov : effOverride req = none)
    (hna : findAliasSplit (splitPath req.pathname) = none) :
    (∀ rest, stripAfter "capture" (splitPath req.pathname) = some rest →
      resolveTarget req =
        (ResolvedBase.str "https://api.anthropic.com", "/" ++ joinSegs rest)) ∧
    (stripAfter "capture" (splitPath req.pathname) = none →
      ((splitPath req.pathname).length ≥ 3 ∧
        (splitPath req.pathname)[0]? = some "functions" ∧
        (splitPath req.pathname)[1]? = some "v1") →
      resolveTarget req =
        (ResolvedBase.str "https://api.anthropic.com",
          "/" ++ joinSegs ((splitPath req.pathname).drop 3))) ∧
    (stripAfter "capture" (splitPath req.pathname) = none →
      ¬((splitPath req.pathname).length ≥ 3 ∧
        (splitPath req.pathname)[0]? = some "functions" ∧
        (splitPath req.pathname)[1]? = some "v1") →
      resolveTarget req = (ResolvedBase.str "https://api.anthropic.com", req.pathname)) := by
  refine ⟨?_, ?_, ?_⟩
  · intro rest hs
    simp [resolveTarget, hov, hna, hs]
  · intro hs hcond
    simp [resolveTarget, hov, hna, hs, hcond]
  · intro hs hcond
    simp [resolveTarget, hov, hna, hs, hcond]

/-- Claim C5 witness: the path `/functions/v1/capture/foo/bar` with no
override and no matching segment resolves to the default upstream with
`capture` stripped, giving `https://api.anthropic.com/foo/bar`. -/
theorem default_resolution_witness :
    resolveTarget reqFooBarEx =
      (ResolvedBase.str "https://api.anthropic.com", "/foo/bar") ∧
    buildTargetUrl (ResolvedBase.str "https://api.anthropic.com") "/foo/bar" "" =
      Except.ok "https://api.anthropic.com/foo/bar" :=
  ⟨(default_resolution reqFooBarEx (by decide) (by decide)).1 ["foo", "bar"] (by decide),
    rfl⟩

/-- Claim C2 counterexample: with the empty-string configuration
defaults, `createClient` throws after a successful fetch and the
client receives the 500 catch response instead of the upstream
response (and not a 502 either), so absent logging configuration does
change the client-visible response; independently, a scheme-less
override target makes `new URL` throw, also yielding a 500 instead of
"the upstream's response or the synthesized 502". -/
theorem empty_config_changes_response :
    envNoConfig.fetchResult = Except.ok respJson ∧
    envNoConfig.supabaseUrl = "" ∧
    (handle reqJson envNoConfig).fetchAttempted = true ∧
    (handle reqJson envNoConfig).response.status = 500 ∧
    (handle reqJson envNoConfig).response ≠ respJson ∧
    ¬((handle reqJson envNoConfig).response.status = 502) ∧
    (handle reqJson envAllOk).response = respJson ∧
    (handle reqBadOverride envAllOk).response.status = 500 :=
  ⟨rfl, rfl, by decide, by decide, by decide, by decide, by decide, by decide⟩

/-- Claim C2 (amended): for every non-preflight request whose URL
construction succeeds and whose logging configuration is complete (so
neither deterministic throw into the top-level catch occurs), the
client-visible response is exactly the upstream's response (or the
synthesized 502 response), and it is unchanged when the
logging-related outcomes (insert error, bucket lookup, upload
success, duration) change; with empty configuration the client
instead receives the 500 catch response. -/
theorem client_response_independent_of_logging (req : Request) (env env' : Env)
    (hm : req.method ≠ "OPTIONS") (hurl : urlBuildOk req = true)
    (hcc : createClientThrow env = none) (hcc' : createClientThrow env' = none)
    (hf : env'.fetchResult = env.fetchResult) :
    (handle req env').response = (handle req env).response ∧
    (handle req env).response =
      match env.fetchResult with
      | Except.ok r => r
      | Except.error msg =>
        { status := 502, headers := [], body := upstreamFailureBody msg } := by
  cases hu : buildTargetUrl (resolveTarget req).1 (resolveTarget req).2 req.search with
  | error msg => simp [urlBuildOk, hu] at hurl
  | ok u =>
    cases hfe : env.fetchResult <;>
      cases hde : env.dbInsertError <;>
      cases hde' : env'.dbInsertError <;>
      rw [hfe] at hf <;>
      simp [handle, hm, hu, hcc, hcc', hf, hfe, hde, hde']

/-- Claim C2 witness: with the same upstream response and complete
configuration, an environment where every logging sink fails produces
the same client-visible response as one where logging succeeds, and
that response is the upstream's. -/
theorem client_response_independent_of_logging_witness :
    (handle reqJson envLogBad).response = (handle reqJson envAllOk).response ∧
    (handle reqJson envAllOk).response = respJson :=
  client_response_independent_of_logging reqJson envAllOk envLogBad (by decide)
    (by decide) (by decide) (by decide) rfl

/-- Claim C6: for a JSON or text (non-event-stream) upstream response,
the body returned to the caller is byte-identical to the response body
captured in the log record.  The run must reach the logging block for
a log record to exist, so the URL-construction and client-construction
guards are part of the claim's presupposition. -/
theorem logged_body_round_trip (req : Request) (env : Env) (r : Response)
    (hm : req.method ≠ "OPTIONS") (hurl : urlBuildOk req = true)
    (hcc : createClientThrow env = none)
    (hf : env.fetchResult = Except.ok r)
    (hstream : jsIncludes ((getHeader r.headers "content-type").getD "") "text/event-stream"
      = false)
    (hct : jsIncludes ((getHeader r.headers "content-type").getD "") "application/json" = true
      ∨ jsIncludes ((getHeader r.headers "content-type").getD "") "text/" = true) :
    (handle req env).response.body = r.body ∧
    ∃ rec, (handle req env).logRecord = some rec ∧
      rec.response_body = some ((handle req env).response.body) := by
  cases hu : buildTargetUrl (resolveTarget req).1 (resolveTarget req).2 req.search with
  | error msg => simp [urlBuildOk, hu] at hurl
  | ok u =>
    cases hde : env.dbInsertError <;>
      rcases hct with hct | hct <;>
      simp [handle, hm, hu, hcc, hf, hde, captureResponseBody, hstream, hct]

/-- Claim C6 witness: a JSON upstream response is both returned and
logged with the identical body. -/
theorem logged_body_round_trip_witness :
    (handle reqJson envAllOk).response.body = respJson.body ∧
    ∃ rec, (handle reqJson envAllOk).logRecord = some rec ∧
      rec.response_body = some ((handle reqJson envAllOk).response.body) :=
  logged_body_round_trip reqJson envAllOk respJson (by decide) (by decide) (by decide)
    rfl (by decide) (Or.inl (by decide))

/-- Claim C7: for an upstream response whose content type includes
`text/event-stream`, the response is passed through to the caller
unmodified (status, headers and body are the upstream's), and the
logged response body equals the fixed sentinel whatever the payload
is.  The same run-reaching guards as for the round-trip claim apply. -/
theorem streaming_sentinel (req : Request) (env : Env) (r : Response)
    (hm : req.method ≠ "OPTIONS") (hurl : urlBuildOk req = true)
    (hcc : createClientThrow env = none)
    (hf : env.fetchResult = Except.ok r)
    (hstream : jsIncludes ((getHeader r.headers "content-type").getD "") "text/event-stream"
      = true) :
    (handle req env).response = r ∧
    ∃ rec, (handle req env).logRecord = some rec ∧
      rec.response_body = some "[STREAMING RESPONSE]" := by
  cases hu : buildTargetUrl (resolveTarget req).1 (resolveTarget req).2 req.search with
  | error msg => simp [urlBuildOk, hu] at hurl
  | ok u =>
    cases hde : env.dbInsertError <;>
      simp [handle, hm, hu, hcc, hf, hde, captureResponseBody, hstream]

/-- Claim C7 witness: a concrete event-stream response is passed
through as-is and logged as the sentinel. -/
theorem streaming_sentinel_witness :
    (handle reqJson
      { envAllOk with fetchResult := Except.ok respStream }).response = respStream ∧
    ∃ rec, (handle reqJson
        { envAllOk with fetchResult := Except.ok respStream }).logRecord = some rec ∧
      rec.response_body = some "[STREAMING RESPONSE]" :=
  streaming_sentinel reqJson { envAllOk with fetchResult := Except.ok respStream }
    respStream (by decide) (by decide) (by decide) rfl (by decide)

/-- Claim C8: when the outbound fetch itself fails, the handler
synthesizes a 502 response whose body describes the error, the same
status and body are recorded in the log record, and a successful fetch
never changes the client-visible status (it stays the upstream's).
The run-reaching guards (URL construction succeeds, configuration
complete) select the runs where the fetch happens and the logging
block is reached. -/
theorem upstream_failure_502 (req : Request) (env : Env) (msg : String)
    (hm : req.method ≠ "OPTIONS") (hurl : urlBuildOk req = true)
    (hcc : createClientThrow env = none)
    (hf : env.fetchResult = Except.error msg) :
    ((handle req env).response.status = 502 ∧
      (handle req env).response.body = upstreamFailureBody msg) ∧
    (∃ rec, (handle req env).logRecord = some rec ∧
      rec.response_status = 502 ∧
      rec.response_body = some (upstreamFailureBody msg)) ∧
    (∀ env' r, createClientThrow env' = none → env'.fetchResult = Except.ok r →
      (handle req env').response.status = r.status) := by
  cases hu : buildTargetUrl (resolveTarget req).1 (resolveTarget req).2 req.search with
  | error m => simp [urlBuildOk, hu] at hurl
  | ok u =>
    refine ⟨?_, ?_, ?_⟩
    · cases hde : env.dbInsertError <;> simp [handle, hm, hu, hcc, hf, hde]
    · cases hde : env.dbInsertError <;> simp [handle, hm, hu, hcc, hf, hde]
    · intro env' r hcc' hf'
      cases hde' : env'.dbInsertError <;> simp [handle, hm, hu, hcc', hf', hde']

/-- Claim C8 witness: a concrete connection failure yields the 502
response and matching log fields, while the successful environment
keeps the upstream status. -/
theorem upstream_failure_502_witness :
    (((handle reqJson { envAllOk with fetchResult := Except.error "connection refused" }
        ).response.status = 502 ∧
      (handle reqJson { envAllOk with fetchResult := Except.error "connection refused" }
        ).response.body = upstreamFailureBody "connection refused") ∧
    (∃ rec, (handle reqJson { envAllOk with fetchResult := Except.error "connection refused" }
        ).logRecord = some rec ∧
      rec.response_status = 502 ∧
      rec.response_body = some (upstreamFailureBody "connection refused")) ∧
    (∀ env' r, createClientThrow env' = none → env'.fetchResult = Except.ok r →
      (handle reqJson env').response.status = r.status)) :=
  upstream_failure_502 reqJson { envAllOk with fetchResult := Except.error "connection refused" }
    "connection refused" (by decide) (by decide) (by decide) rfl

/-- Claim C9 counterexample: in an environment where the structured
insert fails and the fallback upload also fails, zero blob objects are
created — not "exactly one" as the claim states for every failed
insert. -/
theorem insert_and_upload_failure_no_blob :
    envLogBad.dbInsertError = some "relation api_logs does not exist" ∧
    envLogBad.uploadOk = false ∧
    (handle reqJson envLogBad).rowsInserted = 0 ∧
    (handle reqJson envLogBad).blobsCreated = 0 :=
  ⟨rfl, rfl, by decide, by decide⟩

/-- Claim C9 (amended): the log record is written to at most one of
the two sinks, never both: if the structured insert succeeds, one row
and no blob; if it fails, zero rows and at most one blob — exactly one
when the fallback upload succeeds, zero when it also fails.  The
run-reaching guards select the runs where the logging block executes
(otherwise no sink is touched at all). -/
theorem log_single_sink (req : Request) (env : Env)
    (hm : req.method ≠ "OPTIONS") (hurl : urlBuildOk req = true)
    (hcc : createClientThrow env = none) :
    ¬(1 ≤ (handle req env).rowsInserted ∧ 1 ≤ (handle req env).blobsCreated) ∧
    (env.dbInsertError = none →
      (handle req env).rowsInserted = 1 ∧ (handle req env).blobsCreated = 0) ∧
    (∀ e, env.dbInsertError = some e →
      (handle req env).rowsInserted = 0 ∧
      (handle req env).blobsCreated = if env.uploadOk then 1 else 0) := by
  cases hu : buildTargetUrl (resolveTarget req).1 (resolveTarget req).2 req.search with
  | error m => simp [urlBuildOk, hu] at hurl
  | ok u =>
    cases hfe : env.fetchResult <;>
      cases hde : env.dbInsertError <;>
      cases hup : env.uploadOk <;>
      simp [handle, hm, hu, hcc, hfe, hde, hup]

/-- Claim C9 witness: the amended single-sink property at a concrete
request, in the environment where the insert fails and the upload
succeeds (one blob, zero rows). -/
theorem log_single_sink_witness :
    (¬(1 ≤ (handle reqJson envInsertFails).rowsInserted ∧
        1 ≤ (handle reqJson envInsertFails).blobsCreated) ∧
      (envInsertFails.dbInsertError = none →
        (handle reqJson envInsertFails).rowsInserted = 1 ∧
        (handle reqJson envInsertFails).blobsCreated = 0) ∧
      (∀ e, envInsertFails.dbInsertError = some e →
        (handle reqJson envInsertFails).rowsInserted = 0 ∧
        (handle reqJson envInsertFails).blobsCreated =
          if envInsertFails.uploadOk then 1 else 0)) :=
  log_single_sink reqJson envInsertFails (by decide) (by decide) (by decide)

/-- Claim C10: the fixed cross-origin allow headers are exactly the
preflight response's headers and are part of the top-level 500
response's headers (which the two deterministic throw paths return);
a proxied response carries exactly the upstream's headers and the
synthesized 502 response carries none, so the forwarder adds no
cross-origin headers to either. -/
theorem cors_header_placement (req : Request) (env : Env) (msg : String) :
    (req.method = "OPTIONS" → (handle req env).response.headers = corsHeaders) ∧
    (req.method ≠ "OPTIONS" → urlBuildOk req = true → createClientThrow env = none →
      (∀ r, env.fetchResult = Except.ok r →
        (handle req env).response.headers = r.headers) ∧
      (∀ m, env.fetchResult = Except.error m →
        (handle req env).response.headers = [])) ∧
    (internalErrorResponse msg).status = 500 ∧
    (internalErrorResponse msg).headers =
      corsHeaders ++ [("Content-Type", "application/json")] := by
  refine ⟨fun h => by simp [handle, h], fun hm hurl hcc => ?_, rfl, rfl⟩
  cases hu : buildTargetUrl (resolveTarget req).1 (resolveTarget req).2 req.search with
  | error m => simp [urlBuildOk, hu] at hurl
  | ok u =>
    refine ⟨?_, ?_⟩
    · intro r hf
      cases hde : env.dbInsertError <;> simp [handle, hm, hu, hcc, hf, hde]
    · intro m hf
      cases hde : env.dbInsertError <;> simp [handle, hm, hu, hcc, hf, hde]

/-- Claim C10 witness: at a concrete preflight request the returned
headers are exactly the cross-origin set. -/
theorem cors_header_placement_witness :
    (handle reqPreflight envAllOk).response.headers = corsHeaders :=
  (cors_header_placement reqPreflight envAllOk "boom").1 rfl

end Capture
